import Mathlib

/-!
Shallow embedding of the WebAssembly 2.0 module model, validator and
stack-machine runtime of `src/wasm/src/webassembly_2_0.rs`, together with
theorems settling the frozen claims about it.

The value/type primitives (`Value`, `ValueType`, `ValidationError`,
`ValidationResult`, `ModuleId`, `ExecutionEnvironment`) live in the crate's
`types` module, which is not part of the source tree; they are modelled from
the specification and from their uses in `webassembly_2_0.rs`.
Rust `u32`/`usize` indices are modelled as `Nat`, `i32` payloads as `Int`,
`Duration` as a `Nat` number of nanoseconds, and the two `HashMap`s of the
runtime as association lists with insert-replaces-key semantics.
-/

/-- Modelled from the spec: `ValueType` from the missing `types` module — the
type tag of the external tagged union (I32/I64/F32/F64/V128/FuncRef/ExternRef/
strings). -/
inductive ValueType where
  | I32
  | I64
  | F32
  | F64
  | V128
  | FuncRef
  | ExternRef
  | StringType
deriving DecidableEq

/-- Modelled from the spec: `Value` from the missing `types` module — the
external tagged union. Float payloads are carried as opaque IEEE bit patterns
(no claim computes with them). -/
inductive Value where
  | I32 (v : Int)
  | I64 (v : Int)
  | F32 (bits : Nat)
  | F64 (bits : Nat)
  | V128 (bytes : List Nat)
  | FuncRef (idx : Option Nat)
  | ExternRef (idx : Option Nat)
  | StringValue (s : String)
deriving DecidableEq

/-- Modelled from the spec: `ModuleId` from the missing `types` module — an
opaque unique identifier, modelled as a natural number. -/
abbrev ModuleId := Nat

/-- Modelled from the spec: the `ValidationError` taxonomy of the missing
`types` module; the constructor set is the one used by
`webassembly_2_0.rs`. -/
inductive ValidationError where
  | FeatureDependencyError (feature required : String)
  | MultiValueNotSupported
  | InvalidExceptionTag (tag : Nat)
  | ReturnTypeMismatch (expected actual : ValueType)
  | InvalidMemorySize (size : Nat)
  | InvalidTableSize (size : Nat)
  | InvalidSharedMemory
  | InvalidExceptionType
  | EmptyExceptionType
  | InvalidInstructionInHandler
  | TypeMismatch (expected actual : ValueType)
  | InterfaceTypeError (message : String)
deriving DecidableEq

/-- Modelled from the spec: `ValidationResult{is_valid, errors}` as built by
`WebAssembly2Module::validate`. -/
structure ValidationResult where
  is_valid : Bool
  errors : List ValidationError
deriving DecidableEq

/-- `WebAssembly2Error` (webassembly_2_0.rs lines 832-854). -/
inductive WebAssembly2Error where
  | FeatureDependencyError (feature required : String)
  | MultiValueNotSupported
  | InvalidExceptionTag (tag : Nat)
  | InvalidExceptionType
  | EmptyExceptionType
  | InvalidSharedMemory
  | InvalidInstructionInHandler
deriving DecidableEq

/-- `WebAssembly2Features` (lines 22-44). -/
inductive WebAssembly2Features where
  | BulkMemoryOperations
  | TailCallOptimization
  | HostBindings
  | InterfaceTypes
  | SimdInstructions
  | MultiValue
  | ExceptionHandling
  | MultiThreading
  | ReferenceTypes
  | GarbageCollection
deriving DecidableEq

/-- `StringEncoding` (lines 362-374). -/
inductive StringEncoding where
  | UTF8
  | UTF16
  | Latin1
  | WTF8
  | WTF16
deriving DecidableEq

/-- `WebAssembly2Instruction` (lines 263-358). The `TryCatchBlock` and
`TryCatchAllBlock` structs are inlined as constructor fields. -/
inductive WebAssembly2Instruction where
  | I32Const (v : Int)
  | I64Const (v : Int)
  | F32Const (bits : Nat)
  | F64Const (bits : Nat)
  | I32Add
  | I32Sub
  | I32Mul
  | I32Div
  | Call (idx : Nat)
  | Return
  | MemoryCopy (src dst size : Nat)
  | MemoryFill (addr : Nat) (value : Nat) (size : Nat)
  | TableCopy (src_table dst_table src_offset dst_offset size : Nat)
  | TableFill (table : Nat) (offset : Nat) (value : Option Nat) (size : Nat)
  | ReturnCall (idx : Nat)
  | ReturnCallIndirect (idx : Nat)
  | ReturnValues (values : List Value)
  | Throw (tag : Nat)
  | Rethrow
  | TryCatch (catch_label : Nat)
      (try_instructions catch_instructions : List WebAssembly2Instruction)
  | TryCatchAll (catch_all_label : Nat)
      (try_instructions catch_all_instructions : List WebAssembly2Instruction)
  | V128Const (bytes : List Nat)
  | V128Load (offset align : Nat)
  | V128Store (offset align : Nat)
  | V128Add
  | V128Sub
  | V128Mul
  | V128Div
  | V128And
  | V128Or
  | V128Xor
  | V128Not
  | V128Shl
  | V128Shr
  | V128Eq
  | V128Ne
  | V128Lt
  | V128Le
  | V128Gt
  | V128Ge
  | V128Load8x8S (offset : Nat)
  | V128Load8x8U (offset : Nat)
  | V128Load16x4S (offset : Nat)
  | V128Load16x4U (offset : Nat)
  | V128Load32x2S (offset : Nat)
  | V128Load32x2U (offset : Nat)
  | V128Store8x8 (offset : Nat)
  | V128Store16x4 (offset : Nat)
  | V128Store32x2 (offset : Nat)
  | StringNew (encoding : StringEncoding)
  | StringMeasure (encoding : StringEncoding)
  | StringEncode (encoding : StringEncoding)
  | StringConcat
  | StringEq
  | StringAsWTF16
  | StringFromWTF16
  | StringFromWTF8Array
  | StringToWTF8Array
  | StringConst (s : String)
  | StringMeasureWTF8
  | StringMeasureWTF16
  | StringEncodeWTF8
  | StringEncodeWTF16
  | StringConstWTF16 (units : List Nat)
  | StringConstWTF8Array (bytes : List Nat)
  | StringAsLower
  | StringAsUpper

/-- `ReferenceType` (lines 475-483). -/
inductive ReferenceType where
  | FuncRef
  | ExternRef
  | TypeRef (idx : Nat)
deriving DecidableEq

/-- `ExceptionType` (lines 435-443). -/
inductive ExceptionType where
  | Basic (value_type : ValueType)
  | Reference (reference_type : ReferenceType)
  | Compound (types : List ValueType)
deriving DecidableEq

/-- `ExceptionLabel` (lines 487-495). -/
structure ExceptionLabel where
  tag : Nat
  name : String
  exception_type : ExceptionType

/-- `ExceptionHandler` (lines 402-410). -/
structure ExceptionHandler where
  tag : Nat
  exception_type : ExceptionType
  handler_instructions : List WebAssembly2Instruction

/-- `WebAssembly2Function` (lines 168-186). -/
structure WebAssembly2Function where
  index : Nat
  name : String
  params : List ValueType
  results : List ValueType
  locals : List ValueType
  body : List WebAssembly2Instruction
  exception_labels : List ExceptionLabel
  supports_tail_call : Bool

/-- `WebAssembly2MemoryType` (lines 517-525). -/
inductive WebAssembly2MemoryType where
  | Standard
  | Shared
  | Memory64
deriving DecidableEq

/-- `WebAssembly2Memory` (lines 499-513). -/
structure WebAssembly2Memory where
  index : Nat
  initial : Nat
  maximum : Option Nat
  data : List Nat
  shared : Bool
  memory_type : WebAssembly2MemoryType

/-- `WebAssembly2ElementType` (lines 591-599). -/
inductive WebAssembly2ElementType where
  | FuncRef
  | ExternRef
  | TypeRef (idx : Nat)
deriving DecidableEq

/-- `WebAssembly2Table` (lines 573-587). -/
structure WebAssembly2Table where
  index : Nat
  element_type : WebAssembly2ElementType
  initial : Nat
  maximum : Option Nat
  data : List (Option Nat)
  shared : Bool

/-- `WebAssembly2Global` (lines 641-653). -/
structure WebAssembly2Global where
  index : Nat
  value_type : ValueType
  mutable : Bool
  init_value : Value
  supports_reference_types : Bool

/-- `WebAssembly2FunctionType` (lines 721-727). -/
structure WebAssembly2FunctionType where
  params : List ValueType
  results : List ValueType

/-- `WebAssembly2TableType` (lines 731-739). -/
structure WebAssembly2TableType where
  element_type : WebAssembly2ElementType
  initial : Nat
  maximum : Option Nat

/-- `WebAssembly2GlobalType` (lines 743-749). -/
structure WebAssembly2GlobalType where
  value_type : ValueType
  mutable : Bool

/-- `WebAssembly2ImportType` (lines 705-717). -/
inductive WebAssembly2ImportType where
  | Function (t : WebAssembly2FunctionType)
  | Table (t : WebAssembly2TableType)
  | Memory (t : WebAssembly2MemoryType)
  | Global (t : WebAssembly2GlobalType)
  | Exception (t : ExceptionType)

/-- `WebAssembly2Import` (lines 693-701). -/
structure WebAssembly2Import where
  module : String
  field : String
  import_type : WebAssembly2ImportType

/-- `WebAssembly2ExportType` (lines 765-777). -/
inductive WebAssembly2ExportType where
  | Function
  | Table
  | Memory
  | Global
  | Exception
deriving DecidableEq

/-- `WebAssembly2Export` (lines 753-761). -/
structure WebAssembly2Export where
  name : String
  export_type : WebAssembly2ExportType
  index : Nat

/-- `InstanceType` (lines 819-827). -/
inductive InstanceType where
  | Module
  | Component
  | Function
deriving DecidableEq

/-- `ComponentInstance` (lines 807-815). -/
structure ComponentInstance where
  id : Nat
  name : String
  instance_type : InstanceType

/-- `ComponentType` (lines 795-803). -/
inductive ComponentType where
  | Core
  | Interface
  | Composite
deriving DecidableEq

/-- `Component` (lines 781-791). -/
structure Component where
  id : Nat
  name : String
  component_type : ComponentType
  instances : List ComponentInstance

/-- `WebAssembly2Module` (lines 48-72). -/
structure WebAssembly2Module where
  id : ModuleId
  name : String
  features : List WebAssembly2Features
  functions : List WebAssembly2Function
  memories : List WebAssembly2Memory
  tables : List WebAssembly2Table
  globals : List WebAssembly2Global
  imports : List WebAssembly2Import
  exports : List WebAssembly2Export
  exception_handlers : List ExceptionHandler
  components : List Component

/-- `WebAssembly2Module::supports_feature` (lines 101-105). -/
def WebAssembly2Module.supports_feature (m : WebAssembly2Module)
    (feature : WebAssembly2Features) : Bool :=
  m.features.contains feature

/-- `WebAssembly2Module::validate_feature_compatibility` (lines 142-163);
the `&mut errors` out-parameter is threaded explicitly. -/
def WebAssembly2Module.validate_feature_compatibility (m : WebAssembly2Module)
    (errors : List ValidationError) : List ValidationError :=
  let errors :=
    if m.supports_feature WebAssembly2Features.TailCallOptimization
        && !(m.supports_feature WebAssembly2Features.MultiValue) then
      errors ++ [ValidationError.FeatureDependencyError "TailCallOptimization" "MultiValue"]
    else errors
  if m.supports_feature WebAssembly2Features.ExceptionHandling
      && !(m.supports_feature WebAssembly2Features.ReferenceTypes) then
    errors ++ [ValidationError.FeatureDependencyError "ExceptionHandling" "ReferenceTypes"]
  else errors

/-- `ExceptionType::validate` (lines 445-471). -/
def ExceptionType.validate : ExceptionType → Except ValidationError Unit
  | ExceptionType.Basic value_type =>
    match value_type with
    | ValueType.I32 => Except.ok ()
    | ValueType.I64 => Except.ok ()
    | ValueType.F32 => Except.ok ()
    | ValueType.F64 => Except.ok ()
    | _ => Except.error ValidationError.InvalidExceptionType
  | ExceptionType.Reference _ => Except.ok ()
  | ExceptionType.Compound types =>
    if types.isEmpty then Except.error ValidationError.EmptyExceptionType
    else Except.ok ()

/-- The instruction loop of `ExceptionHandler::validate` (lines 419-427):
any raw `Throw` in the handler body is rejected, whatever its tag. -/
def checkHandlerInstructions : List WebAssembly2Instruction → Except ValidationError Unit
  | [] => Except.ok ()
  | WebAssembly2Instruction.Throw _ :: _ =>
    Except.error ValidationError.InvalidInstructionInHandler
  | _ :: rest => checkHandlerInstructions rest

/-- `ExceptionHandler::validate` (lines 412-431). -/
def ExceptionHandler.validate (h : ExceptionHandler) : Except ValidationError Unit :=
  match h.exception_type.validate with
  | Except.error e => Except.error e
  | Except.ok _ => checkHandlerInstructions h.handler_instructions

/-- The loop of `WebAssembly2Function::validate_body` (lines 229-255).
`stack` is the local operand stack of line 226 — the source never pushes to
it, so it stays empty; `exception_stack` mirrors the (otherwise unused)
accumulator of line 227. Only top-level instructions are inspected:
`TryCatch` bodies are not recursed into, and `Return` breaks the loop. -/
def validateBodyLoop (f : WebAssembly2Function) (stack : List Value) :
    List WebAssembly2Instruction → List Nat → Except ValidationError Unit
  | [], _ => Except.ok ()
  | WebAssembly2Instruction.Throw tag :: rest, exception_stack =>
    if f.exception_labels.any (fun label => label.tag == tag) then
      validateBodyLoop f stack rest (exception_stack ++ [tag])
    else
      Except.error (ValidationError.InvalidExceptionTag tag)
  | WebAssembly2Instruction.TryCatch catch_label _ _ :: rest, exception_stack =>
    validateBodyLoop f stack rest (exception_stack ++ [catch_label])
  | WebAssembly2Instruction.Return :: _, _ =>
    if stack.length != f.results.length then
      Except.error (ValidationError.ReturnTypeMismatch
        (f.results.headD ValueType.I32) (f.results.headD ValueType.I32))
    else
      Except.ok ()
  | _ :: rest, exception_stack => validateBodyLoop f stack rest exception_stack

/-- `WebAssembly2Function::validate_body` (lines 223-258). The `ReturnTypeMismatch`
payload reads `results[0]` twice (a stub the source marks as simplified); that
index is only reached when `results` is non-empty, so `headD` never supplies
its default on a reachable path. -/
def WebAssembly2Function.validate_body (f : WebAssembly2Function) :
    Except ValidationError Unit :=
  let stack : List Value := []
  validateBodyLoop f stack f.body []

/-- `WebAssembly2Function::validate` (lines 209-221). -/
def WebAssembly2Function.validate (f : WebAssembly2Function) :
    Except ValidationError Unit :=
  if f.results.length > 1 then Except.error ValidationError.MultiValueNotSupported
  else f.validate_body

/-- `matches!(memory_type, WebAssembly2MemoryType::Shared)` (line 563). -/
def WebAssembly2MemoryType.isSharedKind : WebAssembly2MemoryType → Bool
  | WebAssembly2MemoryType.Shared => true
  | _ => false

/-- `WebAssembly2Memory::validate` (lines 547-568). -/
def WebAssembly2Memory.validate (mem : WebAssembly2Memory) :
    Except ValidationError Unit :=
  if mem.initial == 0 then
    Except.error (ValidationError.InvalidMemorySize mem.initial)
  else
    match mem.maximum with
    | some max =>
      if max < mem.initial then Except.error (ValidationError.InvalidMemorySize max)
      else if mem.shared && !(mem.memory_type.isSharedKind) then
        Except.error ValidationError.InvalidSharedMemory
      else Except.ok ()
    | none =>
      if mem.shared && !(mem.memory_type.isSharedKind) then
        Except.error ValidationError.InvalidSharedMemory
      else Except.ok ()

/-- `WebAssembly2Table::validate` (lines 620-636). -/
def WebAssembly2Table.validate (t : WebAssembly2Table) :
    Except ValidationError Unit :=
  if t.initial == 0 then
    Except.error (ValidationError.InvalidTableSize t.initial)
  else
    match t.maximum with
    | some max =>
      if max < t.initial then Except.error (ValidationError.InvalidTableSize max)
      else Except.ok ()
    | none => Except.ok ()

/-- The `for item { if let Err(e) = item.validate() { errors.push(e) } }`
loops of `WebAssembly2Module::validate` (lines 115-134), one fold per list. -/
def collectErrors {a : Type} (validate : a → Except ValidationError Unit) :
    List a → List ValidationError → List ValidationError
  | [], errors => errors
  | x :: rest, errors =>
    match validate x with
    | Except.error e => collectErrors validate rest (errors ++ [e])
    | Except.ok _ => collectErrors validate rest errors

/-- `WebAssembly2Module::validate` (lines 107-140). Note the source only
delegates to functions, memories and exception handlers — tables, globals,
imports, exports and components are never validated here. -/
def WebAssembly2Module.validate (m : WebAssembly2Module) : ValidationResult :=
  let errors : List ValidationError := []
  let errors := m.validate_feature_compatibility errors
  let errors := collectErrors WebAssembly2Function.validate m.functions errors
  let errors := collectErrors WebAssembly2Memory.validate m.memories errors
  let errors := collectErrors ExceptionHandler.validate m.exception_handlers errors
  { is_valid := errors.isEmpty, errors := errors }

/-- Modelled from the spec: `ExecutionEnvironment` from the missing `types`
module — the per-module linear-memory arena created at load time with a
default capacity of 1 MiB (spec 4.3 and glossary). Only its identity as a
map value matters to the claims. -/
structure ExecutionEnvironment where
  module_id : ModuleId
  memory_capacity : Nat
deriving DecidableEq

/-- `ExecutionEnvironment::new(module_id, capacity)` as called at line 906. -/
def ExecutionEnvironment.new (module_id : ModuleId) (capacity : Nat) :
    ExecutionEnvironment :=
  { module_id := module_id, memory_capacity := capacity }

/-- `Duration::MAX` (line 1020): `u64::MAX` seconds plus 999999999 ns,
as a number of nanoseconds. -/
def durationMAX : Nat := 18446744073709551615 * 1000000000 + 999999999

/-- `Duration::as_millis` on a nanosecond count. -/
def durationAsMillis (d : Nat) : Nat := d / 1000000

/-- `Duration::from_millis` to a nanosecond count. -/
def durationFromMillis (ms : Nat) : Nat := ms * 1000000

/-- `PerformanceStats` (lines 997-1009); `Duration`s are nanosecond counts. -/
structure PerformanceStats where
  total_execution_time : Nat
  execution_count : Nat
  average_execution_time : Nat
  max_execution_time : Nat
  min_execution_time : Nat
deriving DecidableEq

/-- `PerformanceStats::new` (lines 1012-1022). -/
def PerformanceStats.new : PerformanceStats :=
  { total_execution_time := 0
    execution_count := 0
    average_execution_time := 0
    max_execution_time := 0
    min_execution_time := durationMAX }

/-- `PerformanceStats::record_execution` (lines 1024-1038). -/
def PerformanceStats.record_execution (p : PerformanceStats)
    (execution_time : Nat) : PerformanceStats :=
  let total := p.total_execution_time + execution_time
  let count := p.execution_count + 1
  { total_execution_time := total
    execution_count := count
    average_execution_time := durationFromMillis (durationAsMillis total / count)
    max_execution_time :=
      if p.max_execution_time < execution_time then execution_time
      else p.max_execution_time
    min_execution_time :=
      if execution_time < p.min_execution_time then execution_time
      else p.min_execution_time }

/-- `HashMap::insert`: replace any existing binding of the key. -/
def mapInsert {b : Type} (l : List (ModuleId × b)) (k : ModuleId) (v : b) :
    List (ModuleId × b) :=
  (k, v) :: l.filter (fun p => p.1 != k)

/-- `WebAssembly2Runtime` (lines 858-868). -/
structure WebAssembly2Runtime where
  modules : List (ModuleId × WebAssembly2Module)
  execution_environments : List (ModuleId × ExecutionEnvironment)
  supported_features : List WebAssembly2Features
  performance_stats : PerformanceStats

/-- `WebAssembly2Runtime::new` (lines 870-889). -/
def WebAssembly2Runtime.new : WebAssembly2Runtime :=
  { modules := []
    execution_environments := []
    supported_features :=
      [WebAssembly2Features.BulkMemoryOperations,
       WebAssembly2Features.TailCallOptimization,
       WebAssembly2Features.HostBindings,
       WebAssembly2Features.InterfaceTypes,
       WebAssembly2Features.SimdInstructions,
       WebAssembly2Features.MultiValue,
       WebAssembly2Features.ExceptionHandling,
       WebAssembly2Features.ReferenceTypes]
    performance_stats := PerformanceStats.new }

/-- `WebAssembly2Runtime::load_module` (lines 891-912). The mutated receiver
is returned as the second component. -/
def WebAssembly2Runtime.load_module (rt : WebAssembly2Runtime)
    (m : WebAssembly2Module) :
    Except WebAssembly2Error ModuleId × WebAssembly2Runtime :=
  let module_id := m.id
  let validation := m.validate
  if !validation.is_valid then
    (Except.error (WebAssembly2Error.FeatureDependencyError "Module" "Validation"), rt)
  else
    let execution_env := ExecutionEnvironment.new module_id (1024 * 1024)
    (Except.ok module_id,
     { rt with
       modules := mapInsert rt.modules module_id m
       execution_environments :=
         mapInsert rt.execution_environments module_id execution_env })

/-- Two's-complement wrap of `i32` addition (release-mode semantics of the
`a + b` at line 978). -/
def i32wrap (n : Int) : Int := (n + 2 ^ 31) % 2 ^ 32 - 2 ^ 31

/-- The instruction loop of `execute_function_internal` (lines 971-988):
only `I32Const`, `I32Add` and `Return` do anything; every other opcode is a
silent no-op. For `I32Add` the source pops twice before matching, so on a
type mismatch the two popped values are simply lost. The stack's head is its
top. -/
def execBody : List WebAssembly2Instruction → List Value → List Value
  | [], stack => stack
  | WebAssembly2Instruction.I32Const value :: rest, stack =>
    execBody rest (Value.I32 value :: stack)
  | WebAssembly2Instruction.I32Add :: rest, stack =>
    (match stack with
     | Value.I32 b :: Value.I32 a :: s => execBody rest (Value.I32 (i32wrap (a + b)) :: s)
     | _ :: _ :: s => execBody rest s
     | _ => execBody rest [])
  | WebAssembly2Instruction.Return :: _, stack => stack
  | _ :: rest, stack => execBody rest stack

/-- `WebAssembly2Runtime::execute_function_internal` (lines 952-992). The
execution environment is looked up (its absence is an error) but otherwise
unused; `args` are ignored by the source (`_args`); the returned vector is
`vec![stack.pop().unwrap_or(Value::I32(0))]`. -/
def WebAssembly2Runtime.execute_function_internal (rt : WebAssembly2Runtime)
    (module_id : ModuleId) (f : WebAssembly2Function) (_args : List Value) :
    Except WebAssembly2Error (List Value) × WebAssembly2Runtime :=
  match rt.execution_environments.lookup module_id with
  | none =>
    (Except.error (WebAssembly2Error.FeatureDependencyError "ExecutionEnvironment" "ModuleId"), rt)
  | some _ =>
    let stack := execBody f.body []
    (Except.ok [stack.headD (Value.I32 0)], rt)

/-- `WebAssembly2Runtime::execute_function` (lines 914-950). The wall-clock
duration observed by `Instant::now`/`elapsed` is an external input and is
passed in as `elapsed`; the source records it into `performance_stats` only
after `execute_function_internal` has returned successfully, each `?` on the
error paths returning first. -/
def WebAssembly2Runtime.execute_function (rt : WebAssembly2Runtime)
    (module_id : ModuleId) (function_index : Nat) (args : List Value)
    (elapsed : Nat) :
    Except WebAssembly2Error (List Value) × WebAssembly2Runtime :=
  match rt.modules.lookup module_id with
  | none =>
    (Except.error (WebAssembly2Error.FeatureDependencyError "Module" "ModuleId"), rt)
  | some m =>
    match m.functions.get? function_index with
    | none =>
      (Except.error (WebAssembly2Error.FeatureDependencyError "Function" "FunctionIndex"), rt)
    | some f =>
      match rt.execute_function_internal module_id f args with
      | (Except.error e, rt1) => (Except.error e, rt1)
      | (Except.ok result, rt1) =>
        (Except.ok result,
         { rt1 with
           performance_stats := rt1.performance_stats.record_execution elapsed })

/-- Runtime states reachable from `WebAssembly2Runtime::new` by any sequence
of `load_module` and `execute_function` calls. -/
inductive Reachable : WebAssembly2Runtime → Prop where
  | new : Reachable WebAssembly2Runtime.new
  | load (rt : WebAssembly2Runtime) (m : WebAssembly2Module) :
      Reachable rt → Reachable (rt.load_module m).2
  | exec (rt : WebAssembly2Runtime) (module_id : ModuleId)
      (function_index : Nat) (args : List Value) (elapsed : Nat) :
      Reachable rt →
      Reachable (rt.execute_function module_id function_index args elapsed).2

/-- The `add` module of the round-trip property: one function
`add(a: I32, b: I32) -> I32` with body `[I32Const, I32Const, I32Add, Return]`
(constants 3 and 4, since the interpreter ignores `args`). -/
def addFunction : WebAssembly2Function :=
  { index := 0
    name := "add"
    params := [ValueType.I32, ValueType.I32]
    results := [ValueType.I32]
    locals := []
    body := [WebAssembly2Instruction.I32Const 3,
             WebAssembly2Instruction.I32Const 4,
             WebAssembly2Instruction.I32Add,
             WebAssembly2Instruction.Return]
    exception_labels := []
    supports_tail_call := false }

/-- Module holding only `addFunction`. -/
def addModule : WebAssembly2Module :=
  { id := 1
    name := "add_module"
    features := []
    functions := [addFunction]
    memories := []
    tables := []
    globals := []
    imports := []
    exports := []
    exception_handlers := []
    components := [] }

/-- A table whose own `validate` fails: initial size 0. -/
def zeroTable : WebAssembly2Table :=
  { index := 0
    element_type := WebAssembly2ElementType.FuncRef
    initial := 0
    maximum := none
    data := []
    shared := false }

/-- A module whose only defect is `zeroTable`. -/
def zeroTableModule : WebAssembly2Module :=
  { id := 2
    name := "zero_table"
    features := []
    functions := []
    memories := []
    tables := [zeroTable]
    globals := []
    imports := []
    exports := []
    exception_handlers := []
    components := [] }

/-- A module enabling `TailCallOptimization` but not `MultiValue`. -/
def tailCallOnlyModule : WebAssembly2Module :=
  { id := 3
    name := "tail_call_only"
    features := [WebAssembly2Features.TailCallOptimization]
    functions := []
    memories := []
    tables := []
    globals := []
    imports := []
    exports := []
    exception_handlers := []
    components := [] }

/-- A function whose only `Throw` (of an undeclared tag 99) sits inside a
`TryCatch` try-instruction list. -/
def nestedThrowFunction : WebAssembly2Function :=
  { index := 0
    name := "nested_throw"
    params := []
    results := []
    locals := []
    body := [WebAssembly2Instruction.TryCatch 0
              [WebAssembly2Instruction.Throw 99] []]
    exception_labels := []
    supports_tail_call := false }

/-- A function with a top-level `Throw 5` (tag undeclared) after a no-op. -/
def topThrowFunction : WebAssembly2Function :=
  { index := 0
    name := "top_throw"
    params := []
    results := []
    locals := []
    body := [WebAssembly2Instruction.I32Const 1,
             WebAssembly2Instruction.Throw 5]
    exception_labels := []
    supports_tail_call := false }

/-- A function with two declared results and a top-level undeclared
`Throw 5`: the multi-value check fires before the body scan. -/
def multiResultThrowFunction : WebAssembly2Function :=
  { index := 0
    name := "multi_result_throw"
    params := []
    results := [ValueType.I32, ValueType.I64]
    locals := []
    body := [WebAssembly2Instruction.Throw 5]
    exception_labels := []
    supports_tail_call := false }

/-- A handler of tag 1 whose body throws only the different tag 2. -/
def otherTagHandler : ExceptionHandler :=
  { tag := 1
    exception_type := ExceptionType.Basic ValueType.I32
    handler_instructions := [WebAssembly2Instruction.Throw 2] }

/-- A valid module with no functions at all (id 7). -/
def noFunctionModule : WebAssembly2Module :=
  { id := 7
    name := "no_function"
    features := []
    functions := []
    memories := []
    tables := []
    globals := []
    imports := []
    exports := []
    exception_handlers := []
    components := [] }

/-- A function with an empty body and no declared results; it validates and
executes, leaving the operand stack empty. -/
def emptyBodyFunction : WebAssembly2Function :=
  { index := 0
    name := "empty_body"
    params := []
    results := []
    locals := []
    body := []
    exception_labels := []
    supports_tail_call := false }

/-- A valid module (id 9) holding only `emptyBodyFunction`. -/
def emptyBodyModule : WebAssembly2Module :=
  { id := 9
    name := "empty_body_module"
    features := []
    functions := [emptyBodyFunction]
    memories := []
    tables := []
    globals := []
    imports := []
    exports := []
    exception_handlers := []
    components := [] }

/-- An instruction passes one step of the `validate_body` scan without
stopping it: it is not `Return` (which breaks the loop) and, if it is a
top-level `Throw`, its tag is among the function's declared labels. -/
def scanPasses (f : WebAssembly2Function) : WebAssembly2Instruction → Bool
  | WebAssembly2Instruction.Throw tag =>
    f.exception_labels.any (fun label => label.tag == tag)
  | WebAssembly2Instruction.Return => false
  | _ => true

/-- Whether an instruction list contains a raw top-level `Throw` (of any
tag). -/
def containsThrow : List WebAssembly2Instruction → Bool
  | [] => false
  | WebAssembly2Instruction.Throw _ :: _ => true
  | _ :: rest => containsThrow rest

/-- Runtime after loading the function-less module. -/
def rtNoFn : WebAssembly2Runtime :=
  (WebAssembly2Runtime.new.load_module noFunctionModule).2

/-- Runtime after loading `emptyBodyModule`. -/
def rtEmptyFn : WebAssembly2Runtime :=
  (WebAssembly2Runtime.new.load_module emptyBodyModule).2

lemma collectErrors_eq_append {a : Type} (validate : a → Except ValidationError Unit)
    (xs : List a) (errors : List ValidationError) :
    collectErrors validate xs errors = errors ++ collectErrors validate xs [] := by
  induction xs generalizing errors with
  | nil => simp [collectErrors]
  | cons x rest ih =>
    unfold collectErrors
    cases validate x with
    | error e =>
      dsimp only
      rw [ih (errors ++ [e]), ih ([] ++ [e])]
      simp
    | ok u =>
      dsimp only
      exact ih errors

lemma validate_feature_compatibility_eq_append (m : WebAssembly2Module)
    (errors : List ValidationError) :
    m.validate_feature_compatibility errors =
      errors ++ m.validate_feature_compatibility [] := by
  unfold WebAssembly2Module.validate_feature_compatibility
  split <;> split <;> simp

/-- `Module::validate` collects, in order: the feature-dependency errors,
then one error per failing function, memory and exception handler. -/
lemma module_validate_errors (m : WebAssembly2Module) :
    (m.validate).errors =
      m.validate_feature_compatibility []
        ++ collectErrors WebAssembly2Function.validate m.functions []
        ++ collectErrors WebAssembly2Memory.validate m.memories []
        ++ collectErrors ExceptionHandler.validate m.exception_handlers [] := by
  unfold WebAssembly2Module.validate
  dsimp only
  rw [collectErrors_eq_append ExceptionHandler.validate m.exception_handlers
        (collectErrors WebAssembly2Memory.validate m.memories
          (collectErrors WebAssembly2Function.validate m.functions
            (m.validate_feature_compatibility []))),
      collectErrors_eq_append WebAssembly2Memory.validate m.memories
        (collectErrors WebAssembly2Function.validate m.functions
          (m.validate_feature_compatibility [])),
      collectErrors_eq_append WebAssembly2Function.validate m.functions
        (m.validate_feature_compatibility [])]

lemma module_validate_is_valid (m : WebAssembly2Module) :
    (m.validate).is_valid = (m.validate).errors.isEmpty := rfl

lemma vfc_tail_call_head (m : WebAssembly2Module)
    (h1 : m.supports_feature WebAssembly2Features.TailCallOptimization = true)
    (h2 : m.supports_feature WebAssembly2Features.MultiValue = false) :
    ∃ t, m.validate_feature_compatibility [] =
      ValidationError.FeatureDependencyError "TailCallOptimization" "MultiValue" :: t := by
  unfold WebAssembly2Module.validate_feature_compatibility
  rw [h1, h2]
  dsimp only
  split
  · exact ⟨[ValidationError.FeatureDependencyError "ExceptionHandling" "ReferenceTypes"], rfl⟩
  · exact ⟨[], rfl⟩

lemma checkHandlerInstructions_eq_containsThrow (l : List WebAssembly2Instruction) :
    checkHandlerInstructions l =
      if containsThrow l then Except.error ValidationError.InvalidInstructionInHandler
      else Except.ok () := by
  induction l with
  | nil => rfl
  | cons i rest ih => cases i <;> simp [checkHandlerInstructions, containsThrow, ih]

lemma validateBodyLoop_reaches_bad_throw (f : WebAssembly2Function)
    (stack : List Value) (pre rest : List WebAssembly2Instruction) (tag : Nat)
    (estack : List Nat)
    (hpre : pre.all (scanPasses f) = true)
    (htag : f.exception_labels.any (fun label => label.tag == tag) = false) :
    validateBodyLoop f stack
        (pre ++ WebAssembly2Instruction.Throw tag :: rest) estack =
      Except.error (ValidationError.InvalidExceptionTag tag) := by
  induction pre generalizing estack with
  | nil => simp [validateBodyLoop, htag]
  | cons i pre ih =>
    rw [List.all_cons, Bool.and_eq_true] at hpre
    obtain ⟨h1, h2⟩ := hpre
    cases i <;>
      first
        | (simp [validateBodyLoop, scanPasses, h1, ih _ h2]; done)
        | (simp [scanPasses] at h1; try simp [validateBodyLoop, h1, ih _ h2])

lemma execute_function_internal_snd (rt : WebAssembly2Runtime)
    (module_id : ModuleId) (f : WebAssembly2Function) (args : List Value) :
    (rt.execute_function_internal module_id f args).2 = rt := by
  unfold WebAssembly2Runtime.execute_function_internal
  cases rt.execution_environments.lookup module_id <;> rfl

lemma execute_function_stats (rt : WebAssembly2Runtime) (module_id : ModuleId)
    (function_index : Nat) (args : List Value) (elapsed : Nat) :
    (rt.execute_function module_id function_index args elapsed).2.performance_stats =
      match (rt.execute_function module_id function_index args elapsed).1 with
      | Except.ok _ => rt.performance_stats.record_execution elapsed
      | Except.error _ => rt.performance_stats := by
  unfold WebAssembly2Runtime.execute_function
  cases hm : rt.modules.lookup module_id with
  | none => rfl
  | some m =>
    dsimp only
    cases hf : m.functions.get? function_index with
    | none => rfl
    | some f =>
      dsimp only
      have hsnd := execute_function_internal_snd rt module_id f args
      rcases hint : rt.execute_function_internal module_id f args with ⟨res, rt1⟩
      rw [hint] at hsnd
      simp only [Prod.snd] at hsnd
      cases res with
      | error e => rw [hsnd]
      | ok r => rw [hsnd]

lemma execute_function_modules (rt : WebAssembly2Runtime) (module_id : ModuleId)
    (function_index : Nat) (args : List Value) (elapsed : Nat) :
    (rt.execute_function module_id function_index args elapsed).2.modules =
      rt.modules := by
  unfold WebAssembly2Runtime.execute_function
  cases hm : rt.modules.lookup module_id with
  | none => rfl
  | some m =>
    dsimp only
    cases hf : m.functions.get? function_index with
    | none => rfl
    | some f =>
      dsimp only
      have hsnd := execute_function_internal_snd rt module_id f args
      rcases hint : rt.execute_function_internal module_id f args with ⟨res, rt1⟩
      rw [hint] at hsnd
      simp only [Prod.snd] at hsnd
      cases res with
      | error e => rw [hsnd]
      | ok r => rw [hsnd]

lemma execute_function_envs (rt : WebAssembly2Runtime) (module_id : ModuleId)
    (function_index : Nat) (args : List Value) (elapsed : Nat) :
    (rt.execute_function module_id function_index args elapsed).2.execution_environments =
      rt.execution_environments := by
  unfold WebAssembly2Runtime.execute_function
  cases hm : rt.modules.lookup module_id with
  | none => rfl
  | some m =>
    dsimp only
    cases hf : m.functions.get? function_index with
    | none => rfl
    | some f =>
      dsimp only
      have hsnd := execute_function_internal_snd rt module_id f args
      rcases hint : rt.execute_function_internal module_id f args with ⟨res, rt1⟩
      rw [hint] at hsnd
      simp only [Prod.snd] at hsnd
      cases res with
      | error e => rw [hsnd]
      | ok r => rw [hsnd]

lemma filter_keys {b : Type} (l : List (ModuleId × b)) (k : ModuleId) :
    (l.filter (fun p => p.1 != k)).map Prod.fst =
      (l.map Prod.fst).filter (fun x => x != k) := by
  induction l with
  | nil => rfl
  | cons hd tl ih =>
    by_cases h : hd.1 != k <;> simp [List.filter_cons, h, ih]

lemma mapInsert_keys {b : Type} (l : List (ModuleId × b)) (k : ModuleId) (v : b) :
    (mapInsert l k v).map Prod.fst =
      k :: (l.map Prod.fst).filter (fun x => x != k) := by
  unfold mapInsert
  simp [filter_keys]

/-- Claim C1 (code bug, evaluated at the failing input): the round-trip of
the spec fails in the code. For the `add` module — one function
`add(a: I32, b: I32) -> I32` with body `[I32Const, I32Const, I32Add, Return]`
and declared result `[I32]` — `validate_body` compares the length of an
operand stack it never pushes to (always 0) against the declared result
count (1), so the function fails validation with `ReturnTypeMismatch`,
`load_module` returns `Err` and leaves the runtime unchanged; yet the
interpreter loop itself, run on that same body, does produce `[I32(7)]`,
which is what the repository's own examples (and the spec) expect. -/
theorem c1_round_trip_rejected_by_stub_validator :
    addFunction.validate =
      Except.error (ValidationError.ReturnTypeMismatch ValueType.I32 ValueType.I32)
    ∧ (WebAssembly2Runtime.new.load_module addModule).1 =
        Except.error (WebAssembly2Error.FeatureDependencyError "Module" "Validation")
    ∧ (WebAssembly2Runtime.new.load_module addModule).2 = WebAssembly2Runtime.new
    ∧ execBody addFunction.body [] = [Value.I32 7] :=
  ⟨rfl, rfl, rfl, rfl⟩

/-- Claim C2 (counterexample): a module whose only defect is a table with
initial size 0 — whose own `validate()` does return an error — nevertheless
validates with `is_valid = true` and an empty error list, because
`Module::validate` never calls the tables' `validate`. -/
theorem c2_counterexample_table_error_dropped :
    zeroTable.validate = Except.error (ValidationError.InvalidTableSize 0)
    ∧ zeroTableModule.tables = [zeroTable]
    ∧ (zeroTableModule.validate).is_valid = true
    ∧ (zeroTableModule.validate).errors = [] :=
  ⟨rfl, rfl, rfl, rfl⟩

/-- Claim C2 (amended): `Module::validate()` delegates to each contained
function's, memory's and exception-handler's own `validate()` and
concatenates their errors after the feature-dependency errors; tables (and
globals, imports, exports, components) are not validated, and `is_valid`
is exactly the emptiness of that concatenated list. -/
theorem c2_validate_delegates_without_tables (m : WebAssembly2Module) :
    (m.validate).errors =
      m.validate_feature_compatibility []
        ++ collectErrors WebAssembly2Function.validate m.functions []
        ++ collectErrors WebAssembly2Memory.validate m.memories []
        ++ collectErrors ExceptionHandler.validate m.exception_handlers []
    ∧ (m.validate).is_valid = (m.validate).errors.isEmpty :=
  ⟨module_validate_errors m, module_validate_is_valid m⟩

/-- Claim C3: for every module with `TailCallOptimization` enabled and
`MultiValue` not enabled, `validate()` reports `is_valid = false` and its
error list contains
`FeatureDependencyError{feature="TailCallOptimization", required="MultiValue"}`. -/
theorem c3_tail_call_requires_multi_value (m : WebAssembly2Module)
    (h1 : m.supports_feature WebAssembly2Features.TailCallOptimization = true)
    (h2 : m.supports_feature WebAssembly2Features.MultiValue = false) :
    (m.validate).is_valid = false
    ∧ ValidationError.FeatureDependencyError "TailCallOptimization" "MultiValue"
        ∈ (m.validate).errors := by
  obtain ⟨t, ht⟩ := vfc_tail_call_head m h1 h2
  have herr := module_validate_errors m
  rw [ht] at herr
  constructor
  · rw [module_validate_is_valid m, herr]
    simp
  · rw [herr]
    simp

/-- Claim C3 witness: the concrete module enabling only
`TailCallOptimization` is rejected with the expected dependency error. -/
theorem c3_tail_call_requires_multi_value_witness :
    (tailCallOnlyModule.validate).is_valid = false
    ∧ ValidationError.FeatureDependencyError "TailCallOptimization" "MultiValue"
        ∈ (tailCallOnlyModule.validate).errors :=
  c3_tail_call_requires_multi_value tailCallOnlyModule rfl rfl

/-- Claim C4 (counterexample): a failing call — here `execute_function` on a
fresh runtime with no loaded module — returns an error and leaves
`execution_count` at 0, so the stats are not updated on every call. -/
theorem c4_counterexample_failed_call_not_recorded :
    (WebAssembly2Runtime.new.execute_function 0 0 [] 5).1 =
      Except.error (WebAssembly2Error.FeatureDependencyError "Module" "ModuleId")
    ∧ (WebAssembly2Runtime.new.execute_function 0 0 [] 5).2.performance_stats.execution_count
        = 0 :=
  ⟨rfl, rfl⟩

/-- Claim C4 (amended): `execute_function` feeds the call's elapsed
wall-clock time into `PerformanceStats` only when the call succeeds —
`execution_count` then increases by exactly one — while every failure path
(module not found, function index out of range, failure inside the
instruction loop) returns before `record_execution` and leaves the stats
unchanged. -/
theorem c4_stats_recorded_only_on_success (rt : WebAssembly2Runtime)
    (module_id : ModuleId) (function_index : Nat) (args : List Value)
    (elapsed : Nat) :
    ((rt.execute_function module_id function_index args elapsed).2.performance_stats =
      match (rt.execute_function module_id function_index args elapsed).1 with
      | Except.ok _ => rt.performance_stats.record_execution elapsed
      | Except.error _ => rt.performance_stats)
    ∧ (rt.performance_stats.record_execution elapsed).execution_count =
        rt.performance_stats.execution_count + 1 :=
  ⟨execute_function_stats rt module_id function_index args elapsed, rfl⟩

/-- Claim C5 (counterexample): a function whose body contains `Throw(99)`
only inside a `TryCatch` try-instruction list, with no declared exception
labels, passes validation — nested throws are never examined. -/
theorem c5_counterexample_nested_throw_unchecked :
    nestedThrowFunction.body =
      [WebAssembly2Instruction.TryCatch 0 [WebAssembly2Instruction.Throw 99] []]
    ∧ nestedThrowFunction.exception_labels = []
    ∧ nestedThrowFunction.validate = Except.ok () :=
  ⟨rfl, rfl, rfl⟩

/-- Claim C5 (amended): `validate()` first rejects any function with more
than one declared result with `MultiValueNotSupported`; only past that
check are top-level `Throw` instructions examined. If the body is
`pre ++ [Throw tag] ++ rest` where every instruction of `pre` passes the
scan (it is not `Return`, and any top-level `Throw` in it has a declared
tag) and `tag` is not among the function's declared exception labels, then
`validate()` fails — with `MultiValueNotSupported` when more than one
result is declared, and with `InvalidExceptionTag(tag)` otherwise;
`Throw`s inside `TryCatch`/`TryCatchAll` instruction lists are never
examined. -/
theorem c5_top_level_bad_throw_rejected (f : WebAssembly2Function)
    (pre rest : List WebAssembly2Instruction) (tag : Nat)
    (hbody : f.body = pre ++ WebAssembly2Instruction.Throw tag :: rest)
    (hpre : pre.all (scanPasses f) = true)
    (htag : f.exception_labels.any (fun label => label.tag == tag) = false) :
    f.validate =
      if f.results.length > 1 then
        Except.error ValidationError.MultiValueNotSupported
      else
        Except.error (ValidationError.InvalidExceptionTag tag) := by
  unfold WebAssembly2Function.validate WebAssembly2Function.validate_body
  by_cases hres : f.results.length > 1
  · rw [if_pos hres, if_pos hres]
  · rw [if_neg hres, if_neg hres, hbody]
    exact validateBodyLoop_reaches_bad_throw f [] pre rest tag [] hpre htag

/-- Claim C5 witness: both branches exercised. The single-result-free
function with top-level `Throw 5` after a harmless `I32Const` is rejected
with `InvalidExceptionTag 5`, while the two-result function whose body is
`[Throw 5]` is rejected by the earlier multi-value check. -/
theorem c5_top_level_bad_throw_rejected_witness :
    (topThrowFunction.validate =
      if topThrowFunction.results.length > 1 then
        Except.error ValidationError.MultiValueNotSupported
      else
        Except.error (ValidationError.InvalidExceptionTag 5))
    ∧ (multiResultThrowFunction.validate =
      if multiResultThrowFunction.results.length > 1 then
        Except.error ValidationError.MultiValueNotSupported
      else
        Except.error (ValidationError.InvalidExceptionTag 5)) :=
  ⟨c5_top_level_bad_throw_rejected topThrowFunction
     [WebAssembly2Instruction.I32Const 1] [] 5 rfl rfl rfl,
   c5_top_level_bad_throw_rejected multiResultThrowFunction
     [] [] 5 rfl rfl rfl⟩

/-- Claim C6 (counterexample): a handler with tag 1 whose body contains only
`Throw(2)` — a tag different from its own — is still rejected with
`InvalidInstructionInHandler`, contradicting the claim that only a raw
`Throw` of the handler's own tag is rejected. -/
theorem c6_counterexample_other_tag_throw_rejected :
    otherTagHandler.tag = 1
    ∧ otherTagHandler.handler_instructions = [WebAssembly2Instruction.Throw 2]
    ∧ otherTagHandler.validate = Except.error ValidationError.InvalidInstructionInHandler :=
  ⟨rfl, rfl, rfl⟩

/-- Claim C6 (amended): after its exception type validates,
`ExceptionHandler::validate()` rejects the handler with
`InvalidInstructionInHandler` exactly when the handler's instruction list
contains a raw top-level `Throw` of any tag whatsoever — the thrown tag is
never compared with the handler's own tag. -/
theorem c6_handler_rejects_any_throw (h : ExceptionHandler) :
    h.validate =
      match h.exception_type.validate with
      | Except.error e => Except.error e
      | Except.ok _ =>
        if containsThrow h.handler_instructions then
          Except.error ValidationError.InvalidInstructionInHandler
        else Except.ok () := by
  unfold ExceptionHandler.validate
  cases h.exception_type.validate with
  | error e => rfl
  | ok u => exact checkHandlerInstructions_eq_containsThrow h.handler_instructions

/-- Claim C7: for every runtime in which `module_id` resolves to a loaded
module `m`, and every `function_index` at or beyond `m`'s function count,
`execute_function` returns an error (the function-not-found error); the
embedding is a total function, mirroring that the source reaches this case
through `Vec::get`, which cannot panic. -/
theorem c7_out_of_range_function_index_errors (rt : WebAssembly2Runtime)
    (module_id : ModuleId) (function_index : Nat) (args : List Value)
    (elapsed : Nat) (m : WebAssembly2Module)
    (hm : rt.modules.lookup module_id = some m)
    (hidx : m.functions.length ≤ function_index) :
    (rt.execute_function module_id function_index args elapsed).1 =
      Except.error (WebAssembly2Error.FeatureDependencyError "Function" "FunctionIndex") := by
  have hget : m.functions.get? function_index = none := by
    rw [List.get?_eq_none]
    exact hidx
  unfold WebAssembly2Runtime.execute_function
  rw [hm]
  dsimp only
  rw [hget]

/-- Claim C7 witness: on the runtime holding the function-less module with
id 7, calling function index 0 (which is already out of range) returns the
function-not-found error. -/
theorem c7_out_of_range_function_index_errors_witness :
    (rtNoFn.execute_function 7 0 [] 5).1 =
      Except.error (WebAssembly2Error.FeatureDependencyError "Function" "FunctionIndex") :=
  c7_out_of_range_function_index_errors rtNoFn 7 0 [] 5 noFunctionModule rfl
    (by decide)

/-- Claim C8: whenever `execute_function` returns `Ok(values)`, `values` has
length exactly one, whatever the function's declared results and the
arguments; the single value is the interpreter stack's top, or `I32(0)` when
the body left the stack empty (`vec![stack.pop().unwrap_or(Value::I32(0))]`). -/
theorem c8_ok_result_is_always_singleton (rt : WebAssembly2Runtime)
    (module_id : ModuleId) (function_index : Nat) (args : List Value)
    (elapsed : Nat) (vs : List Value) (rt2 : WebAssembly2Runtime)
    (hok : rt.execute_function module_id function_index args elapsed =
      (Except.ok vs, rt2)) :
    vs.length = 1
    ∧ ∀ m f, rt.modules.lookup module_id = some m →
        m.functions.get? function_index = some f →
        vs = [(execBody f.body []).headD (Value.I32 0)] := by
  unfold WebAssembly2Runtime.execute_function at hok
  cases hm : rt.modules.lookup module_id with
  | none => rw [hm] at hok; exact absurd hok (by simp)
  | some m0 =>
    rw [hm] at hok
    dsimp only at hok
    cases hf : m0.functions.get? function_index with
    | none => rw [hf] at hok; exact absurd hok (by simp)
    | some f0 =>
      rw [hf] at hok
      dsimp only at hok
      unfold WebAssembly2Runtime.execute_function_internal at hok
      cases he : rt.execution_environments.lookup module_id with
      | none => rw [he] at hok; exact absurd hok (by simp)
      | some env =>
        rw [he] at hok
        dsimp only at hok
        have hvs : vs = [(execBody f0.body []).headD (Value.I32 0)] := by
          have h1 := congrArg Prod.fst hok
          dsimp only at h1
          exact (Except.ok.inj h1).symm
        constructor
        · rw [hvs]; rfl
        · intro m f hm2 hf2
          injection hm2 with hmm
          subst hmm
          rw [hf] at hf2
          injection hf2 with hff
          subst hff
          exact hvs

/-- Claim C8 witness: executing the empty-bodied function of the loaded
module with id 9 returns exactly `[I32(0)]`. -/
theorem c8_ok_result_is_always_singleton_witness :
    (([Value.I32 0] : List Value).length = 1
    ∧ ∀ m f, rtEmptyFn.modules.lookup 9 = some m →
        m.functions.get? 0 = some f →
        ([Value.I32 0] : List Value) = [(execBody f.body []).headD (Value.I32 0)]) :=
  c8_ok_result_is_always_singleton rtEmptyFn 9 0 [] 3 [Value.I32 0]
    ((rtEmptyFn.execute_function 9 0 [] 3).2) rfl

/-- Claim C9: `load_module` is atomic on failure — when the module's
`validate()` reports `is_valid = false`, it returns the wrapped validation
error and the runtime is returned unchanged (no insertion into either
registry). -/
theorem c9_load_module_atomic_on_failure (rt : WebAssembly2Runtime)
    (m : WebAssembly2Module) (hinv : (m.validate).is_valid = false) :
    rt.load_module m =
      (Except.error (WebAssembly2Error.FeatureDependencyError "Module" "Validation"), rt) := by
  unfold WebAssembly2Runtime.load_module
  dsimp only
  rw [hinv]
  simp

/-- Claim C9 witness: loading the invalid tail-call-only module into a fresh
runtime fails and returns the runtime unchanged. -/
theorem c9_load_module_atomic_on_failure_witness :
    WebAssembly2Runtime.new.load_module tailCallOnlyModule =
      (Except.error (WebAssembly2Error.FeatureDependencyError "Module" "Validation"),
       WebAssembly2Runtime.new) :=
  c9_load_module_atomic_on_failure WebAssembly2Runtime.new tailCallOnlyModule rfl

/-- Claim C10: in every runtime state reachable from `Runtime::new` by any
sequence of `load_module` and `execute_function` calls, the `modules`
registry and the `execution_environments` registry have the same keys (even
in the same order): a successful `load_module` inserts into both under the
same `ModuleId`, and no operation removes from either. -/
theorem c10_registries_share_key_set (rt : WebAssembly2Runtime)
    (h : Reachable rt) :
    rt.modules.map Prod.fst = rt.execution_environments.map Prod.fst := by
  induction h with
  | new => rfl
  | load rt m hr ih =>
    cases hv : (m.validate).is_valid with
    | false =>
      have hpair : (rt.load_module m).2 = rt := by
        unfold WebAssembly2Runtime.load_module
        simp [hv]
      rw [hpair]
      exact ih
    | true =>
      have hpair : (rt.load_module m).2 =
          { rt with
            modules := mapInsert rt.modules m.id m
            execution_environments :=
              mapInsert rt.execution_environments m.id
                (ExecutionEnvironment.new m.id (1024 * 1024)) } := by
        unfold WebAssembly2Runtime.load_module
        simp [hv]
      rw [hpair]
      dsimp only
      rw [mapInsert_keys, mapInsert_keys, ih]
  | exec rt module_id function_index args elapsed hr ih =>
    rw [execute_function_modules, execute_function_envs]
    exact ih

/-- Claim C10 witness: the invariant applied to the concrete reachable state
obtained by loading `emptyBodyModule` and then executing its function. -/
theorem c10_registries_share_key_set_witness :
    ((WebAssembly2Runtime.new.load_module emptyBodyModule).2.execute_function
        9 0 [] 3).2.modules.map Prod.fst =
      ((WebAssembly2Runtime.new.load_module emptyBodyModule).2.execute_function
        9 0 [] 3).2.execution_environments.map Prod.fst :=
  c10_registries_share_key_set _
    (Reachable.exec (WebAssembly2Runtime.new.load_module emptyBodyModule).2
      9 0 [] 3
      (Reachable.load WebAssembly2Runtime.new emptyBodyModule Reachable.new))

/-- Claim C2 witness: the delegation equation evaluated at the concrete
module whose only defect is an invalid table. -/
theorem c2_validate_delegates_without_tables_witness :
    (zeroTableModule.validate).errors =
      zeroTableModule.validate_feature_compatibility []
        ++ collectErrors WebAssembly2Function.validate zeroTableModule.functions []
        ++ collectErrors WebAssembly2Memory.validate zeroTableModule.memories []
        ++ collectErrors ExceptionHandler.validate zeroTableModule.exception_handlers []
    ∧ (zeroTableModule.validate).is_valid = (zeroTableModule.validate).errors.isEmpty :=
  c2_validate_delegates_without_tables zeroTableModule

/-- Claim C4 witness: the success-only recording equation evaluated at a
concrete failing call on a fresh runtime. -/
theorem c4_stats_recorded_only_on_success_witness :
    ((WebAssembly2Runtime.new.execute_function 0 0 [] 5).2.performance_stats =
      match (WebAssembly2Runtime.new.execute_function 0 0 [] 5).1 with
      | Except.ok _ => WebAssembly2Runtime.new.performance_stats.record_execution 5
      | Except.error _ => WebAssembly2Runtime.new.performance_stats)
    ∧ (WebAssembly2Runtime.new.performance_stats.record_execution 5).execution_count =
        WebAssembly2Runtime.new.performance_stats.execution_count + 1 :=
  c4_stats_recorded_only_on_success WebAssembly2Runtime.new 0 0 [] 5

/-- Claim C6 witness: the characterization evaluated at the concrete handler
that throws a tag different from its own. -/
theorem c6_handler_rejects_any_throw_witness :
    otherTagHandler.validate =
      match otherTagHandler.exception_type.validate with
      | Except.error e => Except.error e
      | Except.ok _ =>
        if containsThrow otherTagHandler.handler_instructions then
          Except.error ValidationError.InvalidInstructionInHandler
        else Except.ok () :=
  c6_handler_rejects_any_throw otherTagHandler
